import Mathlib

/-
Verification of the batch point-cloud renderer in `src/o3d_batch.py`.

The render backend (Open3D `Visualizer`) is modelled as an oracle supplying
captured buffers: `RenderEnv.capture` stands for the pair of calls
`vis.capture_screen_float_buffer` / `vis.capture_depth_float_buffer` made by
`_capture_rgb_depth` after the given number of settle pumps, and
`RenderEnv.chromaShot` stands for the screen capture made inside
`_chroma_key_alpha` (the one call the main loop guards with try/except, so it
is modelled as fallible).  Real-valued buffer contents are modelled over `ℚ`;
8-bit narrowing (`astype(np.uint8)` on clipped non-negative values) is the
floor.  Filesystem effects (resume-file writes, empty-frame log appends,
image saves) are modelled as an explicit event trace.
-/

namespace O3D

/-- One float-space color pixel: the three channels of a row of
`capture_screen_float_buffer`. -/
abbrev Pixel3 := ℚ × ℚ × ℚ

/-- One 8-bit color pixel after `astype(np.uint8)`. -/
abbrev Byte3 := ℕ × ℕ × ℕ

/-- The fields of the CFG dict of `src/o3d_batch.py` (lines 8-36) that the
per-frame pipeline behaviour depends on.  Fields that only name filesystem
locations (`in_dir`, `out_dir`, `glob`, `view_json`, `resume_file`) or feed
the excluded render backend (`width`, `height`, `point_size`, `voxel_size`,
`translate_to_ref_center`, `gc_every`) are abstracted away. -/
structure Config where
  brightness : ℚ
  use_resume : Bool
  max_files : ℕ
  chroma_key_fallback : Bool
  chroma_key_rgb : Pixel3
  chroma_tol : ℚ

/-- The default values of CFG in `src/o3d_batch.py` lines 19-35. -/
def defaultConfig : Config :=
  { brightness := 1
    use_resume := false
    max_files := 0
    chroma_key_fallback := true
    chroma_key_rgb := (1, 0, 1)
    chroma_tol := 0 }

/-- Oracle model of the render backend for one frame.  `capture n bg` is the
(screen, depth) buffer pair read back after `n` settle pumps with background
color `bg`; `chromaShot n bg` is the screen capture performed inside
`_chroma_key_alpha` after `n` settle pumps with background `bg`, which the
caller wraps in try/except, so an exception is modelled as `Except.error`. -/
structure RenderEnv where
  capture : ℕ → Pixel3 → List Pixel3 × List ℚ
  chromaShot : ℕ → Pixel3 → Except Unit (List Pixel3)

/-- One input frame of the batch: the stem of the .ply file, whether its
output .png already exists (line 217), whether its point cloud is empty
(line 222), and the backend oracle for its captures. -/
structure Frame where
  name : String
  outputExists : Bool
  cloudEmpty : Bool
  env : RenderEnv

/-- The mutable state the main loop threads between frames: the render
option's background color (`opt.background_color`) and the current content
of the resume file (`none` while nothing has been persisted). -/
structure LoopState where
  background : Pixel3
  persisted : Option ℕ

/-- Embeds `alpha.max()` on a (flattened) mask: the maximum entry, 0 for an
empty mask. -/
def maskMax (m : List ℕ) : ℕ := m.foldr max 0

/-- Embeds the per-channel conversion `(np.clip(rgb, 0, 1) * 255.0).astype(np.uint8)`
of `_capture_rgb_depth` (line 105): clamp to [0,1], scale by 255, truncate. -/
def byteOf (q : ℚ) : ℕ := (Int.floor (255 * min 1 (max 0 q))).toNat

/-- `byteOf` applied to the three channels of a float pixel. -/
def byte3 (p : Pixel3) : Byte3 := (byteOf p.1, byteOf p.2.1, byteOf p.2.2)

/-- The three buffers `_capture_rgb_depth` returns (lines 101-107): the float
color buffer, its 8-bit conversion, and the depth-based alpha mask. -/
structure CaptureRD where
  rgbFloat : List Pixel3
  rgb8 : List Byte3
  alpha : List ℕ

/-- Embeds `_capture_rgb_depth` (src/o3d_batch.py lines 101-107): after the
settle pumps, read the screen and depth buffers; `rgb8` is the clipped,
scaled, truncated color; `alpha` is 255 where depth > 0, else 0
(`np.where(dep > 0, 255, 0)`). -/
def capture_rgb_depth (env : RenderEnv) (settle : ℕ) (bg : Pixel3) : CaptureRD :=
  let bufs := env.capture settle bg
  { rgbFloat := bufs.1
    rgb8 := bufs.1.map byte3
    alpha := bufs.2.map fun d => if 0 < d then 255 else 0 }

/-- Embeds `np.abs(rgb_key - key[None, None, :]).max(axis=2)` at one pixel
(line 125): the maximum over channels of the absolute difference from the
key color. -/
def maxAbsDiff (p k : Pixel3) : ℚ :=
  max |p.1 - k.1| (max |p.2.1 - k.2.1| |p.2.2 - k.2.2|)

/-- The per-pixel chroma classification of lines 125-127: alpha 255 where the
max channel difference strictly exceeds the tolerance (`diff > chroma_tol`),
else alpha 0. -/
def chromaAlphaPx (key : Pixel3) (tol : ℚ) (p : Pixel3) : ℕ :=
  if tol < maxAbsDiff p key then 255 else 0

/-- Embeds `_chroma_key_alpha` (src/o3d_batch.py lines 109-128).  The
background color is set to the key before the capture; if the capture raises
(`Except.error`) the exception propagates out of the function BEFORE the
`opt.background_color = bg_orig` restore line runs, so the returned state
keeps the key color as background; on success the mask is computed and the
original background is restored.  Returns (result, background-after). -/
def chroma_key_alpha (cfg : Config) (env : RenderEnv) (bg : Pixel3) (settle : ℕ) :
    Except Unit (List ℕ) × Pixel3 :=
  let key := cfg.chroma_key_rgb
  let bgOrig := bg
  match env.chromaShot settle key with
  | Except.error e => (Except.error e, key)
  | Except.ok rgbKey => (Except.ok (rgbKey.map (chromaAlphaPx key cfg.chroma_tol)), bgOrig)

/-- The stages of the alpha-extraction chain of `main` (lines 245-259), each
active stage tagged with the settle-frame count it was invoked with. -/
inductive Stage where
  | depthAttempt (settle : ℕ)
  | depthRetry (settle : ℕ)
  | chromaFallback (settle : ℕ)
  | emptyTerminal
  deriving DecidableEq, Repr

/-- What the extraction chain leaves behind: the 8-bit color buffer the later
compositing uses, the alpha mask, the background color after the chain, and
the list of active stages that ran. -/
structure ExtractResult where
  rgb8 : List Byte3
  alpha : List ℕ
  background : Pixel3
  trace : List Stage

/-- Embeds the extraction chain of `main` (src/o3d_batch.py lines 245-256):
capture with 6 settle frames; if the alpha mask is entirely empty
(`alpha.max() == 0`) capture again with 20; if still empty and the chroma
fallback is enabled, run `_chroma_key_alpha` with 10, keeping the all-zero
depth alpha when it raises (`except Exception: alpha = alpha`).  The color
buffer passed on is always the one of the last depth capture. -/
def extractAlpha (cfg : Config) (env : RenderEnv) (bg : Pixel3) : ExtractResult :=
  let c1 := capture_rgb_depth env 6 bg
  if maskMax c1.alpha = 0 then
    let c2 := capture_rgb_depth env 20 bg
    if maskMax c2.alpha = 0 then
      if cfg.chroma_key_fallback then
        match chroma_key_alpha cfg env bg 10 with
        | (Except.ok a, bg2) =>
            { rgb8 := c2.rgb8, alpha := a, background := bg2
              trace := [Stage.depthAttempt 6, Stage.depthRetry 20, Stage.chromaFallback 10] }
        | (Except.error _, bg2) =>
            { rgb8 := c2.rgb8, alpha := c2.alpha, background := bg2
              trace := [Stage.depthAttempt 6, Stage.depthRetry 20, Stage.chromaFallback 10] }
      else
        { rgb8 := c2.rgb8, alpha := c2.alpha, background := bg
          trace := [Stage.depthAttempt 6, Stage.depthRetry 20] }
    else
      { rgb8 := c2.rgb8, alpha := c2.alpha, background := bg
        trace := [Stage.depthAttempt 6, Stage.depthRetry 20] }
  else
    { rgb8 := c1.rgb8, alpha := c1.alpha, background := bg
      trace := [Stage.depthAttempt 6] }

/-- The full stage trace of one frame's extraction, with the terminal Empty
state appended exactly when the final alpha mask is entirely empty — the
condition `alpha.max() == 0` of line 259 under which `main` logs and skips
the frame. -/
def fullTrace (cfg : Config) (env : RenderEnv) (bg : Pixel3) : List Stage :=
  let ex := extractAlpha cfg env bg
  ex.trace ++ (if maskMax ex.alpha = 0 then [Stage.emptyTerminal] else [])

/-- Holds when the chroma-fallback stage would leave the frame in the
terminal Empty state: its capture either raises, or yields a mask that is
entirely empty. -/
def chromaStageEmpty (cfg : Config) (env : RenderEnv) (bg : Pixel3) : Prop :=
  match (chroma_key_alpha cfg env bg 10).1 with
  | Except.ok a => maskMax a = 0
  | Except.error _ => True

/-- Python str.strip()'s notion of whitespace: space, tab, newline, carriage
return, vertical tab, form feed. -/
def pyIsSpace (c : Char) : Bool :=
  c == ' ' || c == '\t' || c == '\n' || c == '\r' || c == '\x0b' || c == '\x0c'

/-- Executable model of Python `str.strip()` on the file's text, represented
as its character list: drop whitespace from both ends. -/
def pyStrip (cs : List Char) : List Char :=
  ((cs.dropWhile pyIsSpace).reverse.dropWhile pyIsSpace).reverse

/-- The value of a non-empty all-digit character run, `none` otherwise. -/
def digitsVal (cs : List Char) : Option ℕ :=
  if cs.isEmpty then none
  else
    cs.foldl
      (fun acc c =>
        match acc with
        | none => none
        | some n => if c.isDigit then some (10 * n + (c.toNat - 48)) else none)
      (some 0)

/-- Executable model of Python `int(text)` on decimal text: an optional sign
followed by digits, `none` where Python raises ValueError.  (Python also
accepts underscore digit separators and non-ASCII digits; those inputs are
not modelled and are treated as unparseable.) -/
def pyInt (cs : List Char) : Option ℤ :=
  match cs with
  | '-' :: rest => (digitsVal rest).map fun n => -(n : ℤ)
  | '+' :: rest => (digitsVal rest).map fun n => (n : ℤ)
  | rest => (digitsVal rest).map fun n => (n : ℤ)

/-- Embeds `_read_resume` (src/o3d_batch.py lines 38-45).  The resume file is
modelled as `Option (List Char)` (`none` = the path does not exist); the
call `int(p.read_text().strip())` becomes `pyInt (pyStrip cs)`, with the
ValueError Python raises on non-integer text mapped to `none` exactly as
the `except` clause does. -/
def read_resume (file : Option (List Char)) : Option ℤ :=
  match file with
  | none => none
  | some cs => pyInt (pyStrip cs)

/-- Embeds the start-index computation of `main` (src/o3d_batch.py lines
142-146): 0 unless resume is enabled and `_read_resume` returns a
non-negative value. -/
def computeStart (useResume : Bool) (file : Option (List Char)) : ℕ :=
  if useResume then
    match read_resume file with
    | some r => if 0 ≤ r then r.toNat else 0
    | none => 0
  else 0

/-- Embeds `_write_resume` (src/o3d_batch.py lines 47-51) acting on the
resume-file content: `ok` tells whether the underlying `write_text`
succeeds; on failure the exception is swallowed (`except: pass`) and the
file keeps its previous content. -/
def write_resume (ok : Bool) (persisted : Option ℕ) (nextIndex : ℕ) : Option ℕ :=
  if ok then some nextIndex else persisted

/-- The externally observable actions one frame of the main loop performs:
rendering the frame (geometry update, camera re-apply and captures, lines
221-256), appending to the empty-frame log (line 263), saving the composited
RGBA image (line 277), and attempting a resume-file write (lines 218, 223,
267, 279). -/
inductive Event where
  | render (name : String)
  | logEmpty (idx : ℕ) (name : String)
  | saveImage (name : String) (rgb : List Byte3) (alpha : List ℕ)
  | resumeWrite (v : ℕ)
  deriving DecidableEq, Repr

/-- Scales one 8-bit channel value by the brightness factor the way lines
270-274 do: widen, multiply, clip to [0, 255], narrow (`astype(np.uint8)`,
truncation — equal to the floor on the clipped non-negative value). -/
def brightnessAdjust (b : ℚ) (c : ℕ) : ℕ :=
  (Int.floor (min 255 (max 0 ((c : ℚ) * b)))).toNat

/-- The brightness step of `main` (lines 270-274): the buffer is rescaled
only when the configured brightness differs from 1.0. -/
def applyBrightness (cfg : Config) (rgb8 : List Byte3) : List Byte3 :=
  if cfg.brightness ≠ 1 then
    rgb8.map fun p =>
      (brightnessAdjust cfg.brightness p.1,
       brightnessAdjust cfg.brightness p.2.1,
       brightnessAdjust cfg.brightness p.2.2)
  else rgb8

/-- Embeds one iteration of the main loop (src/o3d_batch.py lines 214-279)
for the frame with original-listing index `idx`; `ok` is whether this
iteration's resume-file write succeeds.  The four paths: output already
exists → skip; empty point cloud → skip; alpha empty after the whole
extraction chain → log + skip; otherwise brightness, composite and save.
Every path ends with exactly one `_write_resume(idx + 1)` attempt. -/
def processFrame (cfg : Config) (f : Frame) (idx : ℕ) (ok : Bool) (st : LoopState) :
    List Event × LoopState :=
  if f.outputExists then
    ([Event.resumeWrite (idx + 1)],
     { background := st.background, persisted := write_resume ok st.persisted (idx + 1) })
  else if f.cloudEmpty then
    ([Event.resumeWrite (idx + 1)],
     { background := st.background, persisted := write_resume ok st.persisted (idx + 1) })
  else
    let ex := extractAlpha cfg f.env st.background
    if maskMax ex.alpha = 0 then
      ([Event.render f.name, Event.logEmpty idx f.name, Event.resumeWrite (idx + 1)],
       { background := ex.background, persisted := write_resume ok st.persisted (idx + 1) })
    else
      ([Event.render f.name,
        Event.saveImage f.name (applyBrightness cfg ex.rgb8) ex.alpha,
        Event.resumeWrite (idx + 1)],
       { background := ex.background, persisted := write_resume ok st.persisted (idx + 1) })

/-- The main loop (lines 214-279) over the enumerated (index, frame) jobs:
runs `processFrame` on each in order, threading the loop state and
concatenating the event traces.  `writeOk idx` tells whether the resume
write of the frame with index `idx` succeeds. -/
def runJobs (cfg : Config) (writeOk : ℕ → Bool) :
    List (ℕ × Frame) → LoopState → List Event × LoopState
  | [], st => ([], st)
  | j :: rest, st =>
    let r := processFrame cfg j.2 j.1 (writeOk j.1) st
    let r2 := runJobs cfg writeOk rest r.2
    (r.1 ++ r2.1, r2.2)

/-- The resume-file content after each frame of the run, in order: the
checkpoint sequence the resume-monotonicity property speaks about. -/
def persistedTrace (cfg : Config) (writeOk : ℕ → Bool) :
    List (ℕ × Frame) → LoopState → List (Option ℕ)
  | [], _ => []
  | j :: rest, st =>
    let st2 := (processFrame cfg j.2 j.1 (writeOk j.1) st).2
    st2.persisted :: persistedTrace cfg writeOk rest st2

/-- Embeds `files = files[start:]` (line 148): the sorted original listing
with the resume offset applied. -/
def filesAfterResume (cfg : Config) (orig : List Frame) (rfile : Option (List Char)) :
    List Frame :=
  orig.drop (computeStart cfg.use_resume rfile)

/-- Embeds the truncation `files = files[:max_files]` applied only when
`max_files` is a positive number (line 149-150). -/
def truncMax (cfg : Config) (fs : List Frame) : List Frame :=
  if 0 < cfg.max_files then fs.take cfg.max_files else fs

/-- Embeds `for k, ply in enumerate(files): idx = start + k` (lines 214-215):
the offset and truncated listing, each frame paired with its index in the
ORIGINAL sorted listing. -/
def frameJobs (cfg : Config) (orig : List Frame) (rfile : Option (List Char)) :
    List (ℕ × Frame) :=
  (truncMax cfg (filesAfterResume cfg orig rfile)).enum.map
    fun p => (computeStart cfg.use_resume rfile + p.1, p.2)

/-- The whole batch run of `main` after seeding: enumerate the jobs and fold
the per-frame step over them. -/
def mainRun (cfg : Config) (writeOk : ℕ → Bool) (orig : List Frame)
    (rfile : Option (List Char)) (st : LoopState) : List Event × LoopState :=
  runJobs cfg writeOk (frameJobs cfg orig rfile) st

/-- The sequence of values the run hands to `_write_resume`, in order. -/
def resumeWriteValues (evs : List Event) : List ℕ :=
  evs.filterMap fun e =>
    match e with
    | Event.resumeWrite v => some v
    | _ => none

/-- The frame indices recorded in empty-frame log entries, in order. -/
def emptyLogIndices (evs : List Event) : List ℕ :=
  evs.filterMap fun e =>
    match e with
    | Event.logEmpty i _ => some i
    | _ => none

/-- A black background, the initial value the main loop sets (line 167). -/
def bgBlack : Pixel3 := (0, 0, 0)

/-- A backend oracle whose captured buffers are always empty and whose
chroma-stage capture always raises. -/
def envAllEmpty : RenderEnv :=
  { capture := fun _ _ => ([], [])
    chromaShot := fun _ _ => Except.error () }

/-- A backend oracle with one pixel of zero depth whose chroma-stage capture
succeeds, returning one black pixel. -/
def envChromaOk : RenderEnv :=
  { capture := fun _ _ => ([(0, 0, 0)], [0])
    chromaShot := fun _ _ => Except.ok [(0, 0, 0)] }

/-- A sample file stem. -/
def nm0 : String := "cloud_000001"

/-- A frame whose output file already exists. -/
def frameExisting : Frame :=
  { name := nm0, outputExists := true, cloudEmpty := false, env := envAllEmpty }

/-- A frame with no existing output and a non-empty cloud whose captures all
come back empty and whose chroma capture raises. -/
def frameAllEmpty : Frame :=
  { name := nm0, outputExists := false, cloudEmpty := false, env := envAllEmpty }

/-- The loop state at the top of the main loop: black background, nothing
persisted yet. -/
def st0 : LoopState := { background := bgBlack, persisted := none }

theorem resumeWriteValues_append (a b : List Event) :
    resumeWriteValues (a ++ b) = resumeWriteValues a ++ resumeWriteValues b :=
  List.filterMap_append a b _

theorem processFrame_writes (cfg : Config) (f : Frame) (idx : ℕ) (ok : Bool)
    (st : LoopState) :
    resumeWriteValues (processFrame cfg f idx ok st).1 = [idx + 1] := by
  simp only [processFrame]
  split_ifs
  all_goals simp [resumeWriteValues]

theorem processFrame_persisted (cfg : Config) (f : Frame) (idx : ℕ) (ok : Bool)
    (st : LoopState) :
    (processFrame cfg f idx ok st).2.persisted = write_resume ok st.persisted (idx + 1) := by
  simp only [processFrame]
  split_ifs
  all_goals rfl

theorem processFrame_logIdx (cfg : Config) (f : Frame) (idx : ℕ) (ok : Bool)
    (st : LoopState) (i : ℕ)
    (h : i ∈ emptyLogIndices (processFrame cfg f idx ok st).1) : i = idx := by
  simp only [processFrame] at h
  revert h
  split_ifs
  all_goals simp [emptyLogIndices]

theorem processFrame_obs (cfg : Config) (f : Frame) (idx : ℕ) (ok1 ok2 : Bool)
    (st1 st2 : LoopState) (hbg : st1.background = st2.background) :
    (processFrame cfg f idx ok1 st1).1 = (processFrame cfg f idx ok2 st2).1
    ∧ (processFrame cfg f idx ok1 st1).2.background
        = (processFrame cfg f idx ok2 st2).2.background := by
  simp only [processFrame]
  rw [hbg]
  split_ifs
  all_goals simp_all

theorem runJobs_writes (cfg : Config) (ok : ℕ → Bool) (jobs : List (ℕ × Frame))
    (st : LoopState) :
    resumeWriteValues (runJobs cfg ok jobs st).1 = jobs.map fun j => j.1 + 1 := by
  induction jobs generalizing st with
  | nil => rfl
  | cons j rest ih =>
    show resumeWriteValues (_ ++ _) = _
    rw [resumeWriteValues_append, processFrame_writes, ih, List.map_cons]
    rfl

theorem persistedTrace_allOk (cfg : Config) (jobs : List (ℕ × Frame)) (st : LoopState) :
    persistedTrace cfg (fun _ => true) jobs st = jobs.map fun j => some (j.1 + 1) := by
  induction jobs generalizing st with
  | nil => rfl
  | cons j rest ih =>
    show _ :: _ = _
    rw [processFrame_persisted, ih, List.map_cons]
    rfl

theorem chain'_le_range' (s n : ℕ) : List.Chain' (· ≤ ·) (List.range' s n) := by
  induction n generalizing s with
  | zero => simp
  | succ n ih =>
    rw [List.range'_succ]
    cases n with
    | zero => simp
    | succ m =>
      rw [List.range'_succ]
      exact List.Chain'.cons (by omega) (List.range'_succ (s + 1) m 1 ▸ ih (s + 1))

theorem range'_map_succ (s n : ℕ) :
    (List.range' s n).map (· + 1) = List.range' (s + 1) n := by
  induction n generalizing s with
  | zero => simp
  | succ n ih => rw [List.range'_succ, List.range'_succ, List.map_cons, ih]

theorem frameJobs_fst (cfg : Config) (orig : List Frame) (rfile : Option (List Char)) :
    (frameJobs cfg orig rfile).map Prod.fst =
      List.range' (computeStart cfg.use_resume rfile)
        (truncMax cfg (filesAfterResume cfg orig rfile)).length := by
  unfold frameJobs
  rw [List.map_map]
  have h1 : (Prod.fst ∘ fun p : ℕ × Frame => (computeStart cfg.use_resume rfile + p.1, p.2))
      = (fun k => computeStart cfg.use_resume rfile + k) ∘ Prod.fst := rfl
  rw [h1, ← List.map_map, List.enum_map_fst, ← List.range'_eq_map_range]

/-- C3: in the chroma-fallback stage with tolerance T and key color K, a
pixel gets alpha 255 iff the maximum over channels of the absolute
difference from K is strictly greater than T; a pixel at exactly distance T
gets alpha 0; and a successful chroma capture classifies every captured
pixel by exactly this rule. -/
theorem chroma_threshold_iff (key : Pixel3) (tol : ℚ) (p : Pixel3) :
    (chromaAlphaPx key tol p = 255 ↔ tol < maxAbsDiff p key)
    ∧ (chromaAlphaPx key tol p = 0 ↔ ¬ tol < maxAbsDiff p key)
    ∧ (maxAbsDiff p key = tol → chromaAlphaPx key tol p = 0)
    ∧ ∀ (cfg : Config) (env : RenderEnv) (bg : Pixel3) (settle : ℕ)
        (rgbKey : List Pixel3),
        env.chromaShot settle cfg.chroma_key_rgb = Except.ok rgbKey →
        (chroma_key_alpha cfg env bg settle).1 =
          Except.ok (rgbKey.map (chromaAlphaPx cfg.chroma_key_rgb cfg.chroma_tol)) := by
  refine ⟨?_, ?_, ?_, ?_⟩
  · unfold chromaAlphaPx
    split <;> simp_all
  · unfold chromaAlphaPx
    split <;> simp_all
  · intro h
    unfold chromaAlphaPx
    rw [h]
    simp
  · intro cfg env bg settle rgbKey h
    simp only [chroma_key_alpha]
    rw [h]

/-- Witness for C3: with tolerance 0, a pixel exactly equal to the key color
is at distance exactly 0 and is classified background. -/
theorem chroma_threshold_iff_witness :
    maxAbsDiff bgBlack bgBlack = 0 ∧ chromaAlphaPx bgBlack 0 bgBlack = 0 :=
  ⟨by norm_num [maxAbsDiff, bgBlack],
   (chroma_threshold_iff bgBlack 0 bgBlack).2.2.1 (by norm_num [maxAbsDiff, bgBlack])⟩

/-- C5: brightness adjustment multiplies the 8-bit channel value by the
factor in a wider numeric type, clamps to [0, 255] and narrows, so the
overflowing product 200 * 2.0 yields 255 rather than wrapping, factor 1.0 is
the identity on byte values, and no input ever produces a value above 255. -/
theorem brightness_clamp :
    brightnessAdjust 2 200 = 255
    ∧ (∀ c : ℕ, c ≤ 255 → brightnessAdjust 1 c = c)
    ∧ (∀ (b : ℚ) (c : ℕ), brightnessAdjust b c ≤ 255) := by
  refine ⟨?_, ?_, ?_⟩
  · norm_num [brightnessAdjust]
    rfl
  · intro c hc
    unfold brightnessAdjust
    rw [mul_one]
    have h0 : max 0 ((c : ℚ)) = (c : ℚ) := max_eq_right (by positivity)
    have h1 : min 255 ((c : ℚ)) = (c : ℚ) := by
      apply min_eq_right
      exact_mod_cast hc
    rw [h0, h1, Int.floor_natCast, Int.toNat_natCast]
  · intro b c
    unfold brightnessAdjust
    have h1 : Int.floor (min 255 (max 0 ((c : ℚ) * b))) ≤ (255 : ℤ) := by
      have := min_le_left (255 : ℚ) (max 0 ((c : ℚ) * b))
      calc Int.floor (min 255 (max 0 ((c : ℚ) * b))) ≤ Int.floor (255 : ℚ) :=
            Int.floor_le_floor this
        _ = 255 := by norm_num
    omega

/-- Witness for C5: the identity conjunct applied at the in-range channel
value 200. -/
theorem brightness_clamp_witness : 200 ≤ 255 ∧ brightnessAdjust 1 200 = 200 :=
  ⟨by norm_num, brightness_clamp.2.1 200 (by norm_num)⟩

/-- C4 as stated is false: counterexample.  With the default configuration
and a backend whose chroma capture raises, the chroma-fallback stage leaves
the background equal to the key color, not to its original value: the
restore line of `_chroma_key_alpha` is skipped when the capture raises. -/
theorem chroma_restore_counterexample :
    ¬ ((chroma_key_alpha defaultConfig envAllEmpty bgBlack 10).2 = bgBlack) := by
  unfold chroma_key_alpha envAllEmpty defaultConfig bgBlack
  norm_num

/-- C4 amended: the background after the chroma-fallback stage equals its
value before the stage whenever the capture completes without raising; when
the capture raises, the background is left set to the key color. -/
theorem chroma_restore_amended (cfg : Config) (env : RenderEnv) (bg : Pixel3)
    (settle : ℕ) :
    (∀ rgbKey, env.chromaShot settle cfg.chroma_key_rgb = Except.ok rgbKey →
        (chroma_key_alpha cfg env bg settle).2 = bg)
    ∧ (∀ e, env.chromaShot settle cfg.chroma_key_rgb = Except.error e →
        (chroma_key_alpha cfg env bg settle).2 = cfg.chroma_key_rgb) := by
  constructor
  · intro rgbKey h
    simp only [chroma_key_alpha]
    rw [h]
  · intro e h
    simp only [chroma_key_alpha]
    rw [h]

/-- Witness for C4's amended statement: a successful chroma capture restores
the black background. -/
theorem chroma_restore_amended_witness :
    (chroma_key_alpha defaultConfig envChromaOk bgBlack 10).2 = bgBlack :=
  (chroma_restore_amended defaultConfig envChromaOk bgBlack 10).1 [(0, 0, 0)] rfl

theorem frameJobs_succ (cfg : Config) (orig : List Frame) (rfile : Option (List Char)) :
    ((frameJobs cfg orig rfile).map fun j => j.1 + 1) =
      List.range' (computeStart cfg.use_resume rfile + 1)
        (truncMax cfg (filesAfterResume cfg orig rfile)).length := by
  have h1 : ((frameJobs cfg orig rfile).map fun j => j.1 + 1)
      = ((frameJobs cfg orig rfile).map Prod.fst).map (· + 1) := by
    rw [List.map_map]
    rfl
  rw [h1, frameJobs_fst, range'_map_succ]

theorem truncMax_getElem (cfg : Config) (fs : List Frame) (k : ℕ)
    (h : k < (truncMax cfg fs).length) : (truncMax cfg fs)[k]? = fs[k]? := by
  unfold truncMax at h ⊢
  by_cases hm : 0 < cfg.max_files
  · rw [if_pos hm] at h ⊢
    rw [List.length_take] at h
    rw [List.getElem?_take, if_pos (lt_of_lt_of_le h (min_le_left _ _))]
  · rw [if_neg hm]

/-- C1: a frame whose depth-based alpha mask is entirely empty passes
through DepthAttempt (6 settle frames), DepthRetry (20), ChromaFallback (10)
in that order, reaching the terminal Empty state exactly when the chroma
stage also comes back empty or raises; and extraction advances to the next
stage exactly when the current stage's mask is entirely empty, never
skipping a stage (remaining conjuncts: a non-empty mask stops the chain at
the current stage). -/
theorem extract_fallback_order (cfg : Config) (env : RenderEnv) (bg : Pixel3)
    (hfb : cfg.chroma_key_fallback = true)
    (h6 : maskMax (capture_rgb_depth env 6 bg).alpha = 0)
    (h20 : maskMax (capture_rgb_depth env 20 bg).alpha = 0)
    (hch : chromaStageEmpty cfg env bg) :
    fullTrace cfg env bg =
      [Stage.depthAttempt 6, Stage.depthRetry 20, Stage.chromaFallback 10,
        Stage.emptyTerminal]
    ∧ (∀ (env2 : RenderEnv) (bg2 : Pixel3),
        maskMax (capture_rgb_depth env2 6 bg2).alpha ≠ 0 →
        fullTrace cfg env2 bg2 = [Stage.depthAttempt 6])
    ∧ (∀ (env2 : RenderEnv) (bg2 : Pixel3),
        maskMax (capture_rgb_depth env2 6 bg2).alpha = 0 →
        maskMax (capture_rgb_depth env2 20 bg2).alpha ≠ 0 →
        fullTrace cfg env2 bg2 = [Stage.depthAttempt 6, Stage.depthRetry 20])
    ∧ (∀ (env2 : RenderEnv) (bgp : Pixel3) (a : List ℕ) (bgq : Pixel3),
        maskMax (capture_rgb_depth env2 6 bgp).alpha = 0 →
        maskMax (capture_rgb_depth env2 20 bgp).alpha = 0 →
        chroma_key_alpha cfg env2 bgp 10 = (Except.ok a, bgq) →
        maskMax a ≠ 0 →
        fullTrace cfg env2 bgp =
          [Stage.depthAttempt 6, Stage.depthRetry 20, Stage.chromaFallback 10]) := by
  refine ⟨?_, ?_, ?_, ?_⟩
  · unfold fullTrace extractAlpha
    rcases hres : chroma_key_alpha cfg env bg 10 with ⟨r, bg2⟩
    cases r with
    | ok a =>
      have ha : maskMax a = 0 := by
        unfold chromaStageEmpty at hch
        rw [hres] at hch
        simpa using hch
      simp [h6, h20, hfb, hres, ha]
    | error e =>
      simp [h6, h20, hfb, hres]
  · intro env2 bg2 hne
    unfold fullTrace extractAlpha
    simp [hne]
  · intro env2 bg2 he6 hne
    unfold fullTrace extractAlpha
    simp [he6, hne]
  · intro env2 bgp a bgq he6 he20 hok hne
    unfold fullTrace extractAlpha
    simp [he6, he20, hfb, hok, hne]

/-- Witness for C1: a backend whose buffers are all empty and whose chroma
capture raises drives the extraction through all three active stages into
the terminal Empty state. -/
theorem extract_fallback_order_witness :
    chromaStageEmpty defaultConfig envAllEmpty bgBlack
    ∧ fullTrace defaultConfig envAllEmpty bgBlack =
        [Stage.depthAttempt 6, Stage.depthRetry 20, Stage.chromaFallback 10,
          Stage.emptyTerminal] := by
  have hch : chromaStageEmpty defaultConfig envAllEmpty bgBlack := by
    unfold chromaStageEmpty chroma_key_alpha envAllEmpty
    simp
  exact ⟨hch,
    (extract_fallback_order defaultConfig envAllEmpty bgBlack rfl rfl rfl hch).1⟩

/-- C7: a frame whose output file already exists is skipped: its event trace
is exactly one resume-write attempt of index + 1, with no render and no
image save; the resume pointer advances to index + 1 and the loop state's
background is untouched. -/
theorem skip_existing_output (cfg : Config) (f : Frame) (idx : ℕ) (ok : Bool)
    (st : LoopState) (h : f.outputExists = true) :
    (processFrame cfg f idx ok st).1 = [Event.resumeWrite (idx + 1)]
    ∧ (processFrame cfg f idx true st).2.persisted = some (idx + 1)
    ∧ (processFrame cfg f idx ok st).2.background = st.background := by
  unfold processFrame
  simp [h, write_resume]

/-- Witness for C7 at a concrete frame with an existing output. -/
theorem skip_existing_output_witness :
    frameExisting.outputExists = true
    ∧ (processFrame defaultConfig frameExisting 4 true st0).1 = [Event.resumeWrite 5] :=
  ⟨rfl, (skip_existing_output defaultConfig frameExisting 4 true st0 rfl).1⟩

/-- C9: when both depth captures come back empty and the chroma capture
raises, the exception is swallowed inside the per-frame step (the model is a
total function): the alpha mask stays all-zero, the frame is rendered,
logged to the empty-frame log and skipped without an image save, and the
resume pointer still advances to index + 1. -/
theorem chroma_exception_empty (cfg : Config) (f : Frame) (idx : ℕ) (ok : Bool)
    (st : LoopState)
    (hout : f.outputExists = false) (hcloud : f.cloudEmpty = false)
    (hfb : cfg.chroma_key_fallback = true)
    (h6 : maskMax (capture_rgb_depth f.env 6 st.background).alpha = 0)
    (h20 : maskMax (capture_rgb_depth f.env 20 st.background).alpha = 0)
    (herr : f.env.chromaShot 10 cfg.chroma_key_rgb = Except.error ()) :
    maskMax (extractAlpha cfg f.env st.background).alpha = 0
    ∧ (processFrame cfg f idx ok st).1 =
        [Event.render f.name, Event.logEmpty idx f.name, Event.resumeWrite (idx + 1)]
    ∧ (processFrame cfg f idx ok st).2.persisted
        = write_resume ok st.persisted (idx + 1) := by
  have hex : maskMax (extractAlpha cfg f.env st.background).alpha = 0 := by
    unfold extractAlpha
    simp [h6, h20, hfb, chroma_key_alpha, herr]
  refine ⟨hex, ?_, processFrame_persisted cfg f idx ok st⟩
  unfold processFrame
  simp [hout, hcloud, hex]

/-- Witness for C9 at a concrete frame whose captures are empty and whose
chroma capture raises. -/
theorem chroma_exception_empty_witness :
    frameAllEmpty.env.chromaShot 10 defaultConfig.chroma_key_rgb = Except.error ()
    ∧ (processFrame defaultConfig frameAllEmpty 7 true st0).1 =
        [Event.render frameAllEmpty.name, Event.logEmpty 7 frameAllEmpty.name,
          Event.resumeWrite 8] :=
  ⟨rfl,
   (chroma_exception_empty defaultConfig frameAllEmpty 7 true st0
      rfl rfl rfl rfl rfl rfl).2.1⟩

/-- C8: with resume enabled, a missing resume file and a file whose content
does not parse as an integer both yield start index 0 (`_read_resume`
returns None and `main` keeps start = 0, no error raised — the model is a
total function); a usable (parseable, non-negative) value r makes the run
drop exactly the first r entries of the sorted listing. -/
theorem resume_read_fallback (u : Bool) :
    computeStart u none = 0
    ∧ (∀ cs : List Char, pyInt (pyStrip cs) = none → computeStart u (some cs) = 0)
    ∧ (∀ (cs : List Char) (r : ℤ), pyInt (pyStrip cs) = some r → 0 ≤ r →
        computeStart true (some cs) = r.toNat
        ∧ ∀ (cfg : Config) (orig : List Frame), cfg.use_resume = true →
            filesAfterResume cfg orig (some cs) = orig.drop r.toNat) := by
  refine ⟨?_, ?_, ?_⟩
  · unfold computeStart read_resume
    cases u <;> simp
  · intro cs h
    unfold computeStart read_resume
    cases u <;> simp [h]
  · intro cs r h hr
    have hstart : computeStart true (some cs) = r.toNat := by
      unfold computeStart read_resume
      simp [h, hr]
    refine ⟨hstart, ?_⟩
    intro cfg orig hcfg
    unfold filesAfterResume
    rw [hcfg, hstart]

/-- Witness for C8: resume-file text "2" parses to 2 and makes the run start
by dropping the first two entries. -/
theorem resume_read_fallback_witness :
    computeStart true (some ['2']) = (2 : ℤ).toNat
    ∧ filesAfterResume { defaultConfig with use_resume := true }
        [frameExisting, frameExisting, frameAllEmpty] (some ['2'])
        = [frameExisting, frameExisting, frameAllEmpty].drop (2 : ℤ).toNat :=
  ⟨((resume_read_fallback true).2.2 ['2'] 2 rfl (by norm_num)).1,
   ((resume_read_fallback true).2.2 ['2'] 2 rfl (by norm_num)).2
     { defaultConfig with use_resume := true }
     [frameExisting, frameExisting, frameAllEmpty] rfl⟩

/-- C2: within one run, the sequence of values handed to the resume writer
is exactly start+1, start+2, ..., one per frame attempted, hence
non-decreasing; and when every write succeeds, the resume-file content after
the frame of index idx is exactly idx + 1, at every checkpoint, on every
per-frame path (existing output, empty cloud, terminal Empty, or render). -/
theorem resume_monotone (cfg : Config) (writeOk : ℕ → Bool) (orig : List Frame)
    (rfile : Option (List Char)) (st : LoopState) :
    resumeWriteValues (mainRun cfg writeOk orig rfile st).1 =
      List.range' (computeStart cfg.use_resume rfile + 1)
        (truncMax cfg (filesAfterResume cfg orig rfile)).length
    ∧ List.Chain' (· ≤ ·) (resumeWriteValues (mainRun cfg writeOk orig rfile st).1)
    ∧ persistedTrace cfg (fun _ => true) (frameJobs cfg orig rfile) st =
        (List.range' (computeStart cfg.use_resume rfile + 1)
          (truncMax cfg (filesAfterResume cfg orig rfile)).length).map some := by
  have hw : resumeWriteValues (mainRun cfg writeOk orig rfile st).1 =
      List.range' (computeStart cfg.use_resume rfile + 1)
        (truncMax cfg (filesAfterResume cfg orig rfile)).length := by
    unfold mainRun
    rw [runJobs_writes, frameJobs_succ]
  refine ⟨hw, ?_, ?_⟩
  · rw [hw]
    exact chain'_le_range' _ _
  · rw [persistedTrace_allOk]
    have h2 : ((frameJobs cfg orig rfile).map fun j => some (j.1 + 1))
        = ((frameJobs cfg orig rfile).map fun j => j.1 + 1).map some := by
      rw [List.map_map]
      rfl
    rw [h2, frameJobs_succ]

/-- C6: the k-th job of the run pairs the frame with index start + k, which
is exactly that frame's zero-based position in the original sorted listing
(the job list is the original listing with `start` entries dropped and an
optional truncation, so job k is original entry start + k); and at that
index the per-frame step's resume write carries (start + k) + 1 while any
empty-log entry carries start + k. -/
theorem frame_index_original (cfg : Config) (orig : List Frame)
    (rfile : Option (List Char)) (k : ℕ)
    (h : k < (frameJobs cfg orig rfile).length) :
    (frameJobs cfg orig rfile)[k]? =
      (orig[computeStart cfg.use_resume rfile + k]?).map
        (fun f => (computeStart cfg.use_resume rfile + k, f))
    ∧ (∀ (f : Frame) (ok : Bool) (st : LoopState),
        resumeWriteValues
            (processFrame cfg f (computeStart cfg.use_resume rfile + k) ok st).1
          = [computeStart cfg.use_resume rfile + k + 1])
    ∧ (∀ (f : Frame) (ok : Bool) (st : LoopState) (i : ℕ),
        i ∈ emptyLogIndices
              (processFrame cfg f (computeStart cfg.use_resume rfile + k) ok st).1 →
        i = computeStart cfg.use_resume rfile + k) := by
  refine ⟨?_, fun f ok st => processFrame_writes cfg f _ ok st,
    fun f ok st i hi => processFrame_logIdx cfg f _ ok st i hi⟩
  have hlen : k < (truncMax cfg (filesAfterResume cfg orig rfile)).length := by
    simpa [frameJobs] using h
  unfold frameJobs
  rw [List.getElem?_map, List.getElem?_enum, Option.map_map,
    truncMax_getElem cfg _ k hlen]
  unfold filesAfterResume
  rw [List.getElem?_drop]
  rfl

/-- Witness for C6 on a one-frame listing with no resume data. -/
theorem frame_index_original_witness :
    (frameJobs defaultConfig [frameExisting] none)[0]? =
      (([frameExisting] : List Frame)[computeStart defaultConfig.use_resume none + 0]?).map
        (fun f => (computeStart defaultConfig.use_resume none + 0, f)) :=
  (frame_index_original defaultConfig [frameExisting] none 0
    (by simp [frameJobs, truncMax, filesAfterResume, computeStart, read_resume,
      defaultConfig])).1

/-- C10: a resume-file write failure is silently suppressed at every
resume-pointer update: the run's event trace (renders, saves, log appends
and write attempts) and its final background are identical whatever pattern
of write successes occurs, so the batch continues unaffected; a failed write
leaves the persisted value unchanged while a successful one persists the
attempted value — persistence is best-effort. -/
theorem resume_write_best_effort (cfg : Config) (jobs : List (ℕ × Frame))
    (ok1 ok2 : ℕ → Bool) (st1 st2 : LoopState)
    (hbg : st1.background = st2.background) :
    (runJobs cfg ok1 jobs st1).1 = (runJobs cfg ok2 jobs st2).1
    ∧ (runJobs cfg ok1 jobs st1).2.background = (runJobs cfg ok2 jobs st2).2.background
    ∧ (∀ (p : Option ℕ) (v : ℕ), write_resume false p v = p)
    ∧ (∀ (p : Option ℕ) (v : ℕ), write_resume true p v = some v) := by
  have key : ∀ (js : List (ℕ × Frame)) (s1 s2 : LoopState),
      s1.background = s2.background →
      (runJobs cfg ok1 js s1).1 = (runJobs cfg ok2 js s2).1
      ∧ (runJobs cfg ok1 js s1).2.background = (runJobs cfg ok2 js s2).2.background := by
    intro js
    induction js with
    | nil => exact fun s1 s2 h => ⟨rfl, h⟩
    | cons j rest ih =>
      intro s1 s2 h
      have hpf := processFrame_obs cfg j.2 j.1 (ok1 j.1) (ok2 j.1) s1 s2 h
      have hr := ih (processFrame cfg j.2 j.1 (ok1 j.1) s1).2
        (processFrame cfg j.2 j.1 (ok2 j.1) s2).2 hpf.2
      simp only [runJobs]
      exact ⟨by rw [hpf.1, hr.1], hr.2⟩
  exact ⟨(key jobs st1 st2 hbg).1, (key jobs st1 st2 hbg).2,
    fun p v => rfl, fun p v => rfl⟩

/-- Witness for C10: a one-frame run with an always-failing resume write
produces the same event trace as with an always-succeeding one. -/
theorem resume_write_best_effort_witness :
    (runJobs defaultConfig (fun _ => false) [(0, frameExisting)] st0).1 =
      (runJobs defaultConfig (fun _ => true) [(0, frameExisting)] st0).1 :=
  (resume_write_best_effort defaultConfig [(0, frameExisting)]
    (fun _ => false) (fun _ => true) st0 st0 rfl).1

end O3D
